import Mathlib

/-!
Verification of the Todoist notifier bot (`main.py`) against its
natural-language specification.

Shallow embedding notes:
* A Todoist `Due` descriptor carries a mandatory `date` string and an
  optional `datetime` string; a `Task` carries an optional `Due`.
  Python truthiness of `task.due` (an object or `None`) is `Option.isSome`;
  truthiness of `task.due.datetime` (an optional string) is
  "present and non-empty".
* Instants are modelled as integer counts of seconds on the proleptic
  Gregorian calendar (`fromisoformat`), matching `datetime.fromisoformat`
  on the second-precision `YYYY-MM-DDTHH:MM:SS` strings this program
  produces and consumes; `datetime` subtraction becomes `Int`
  subtraction of those counts.
* The current instant (`get_current_time()` parsed back by
  `datetime.fromisoformat`) is passed to each function as an explicit
  `now : Int` parameter, frozen for the duration of one computation;
  the current calendar date used by the "today" filter
  (`datetime.date.today()`) is an independent `today : String` parameter.
* Python exceptions (`ValueError`, `IndexError`, attribute errors) are
  modelled with `Except String` / `Option`.
-/

namespace TodoistBot

/-- A due descriptor: `date` is always present (ISO calendar date string),
`datetime` is optionally an ISO-8601 local timestamp string. -/
structure Due where
  date : String
  datetime : Option String
deriving Repr, DecidableEq

/-- A Todoist task, restricted to the fields `main.py` reads. -/
structure Task where
  id : String
  content : String
  due : Option Due
  creator_id : String
  assignee_id : Option String
deriving Repr, DecidableEq

/-- A Todoist project, restricted to the fields `main.py` reads. -/
structure Project where
  id : String
  name : String
  is_inbox_project : Bool
deriving Repr, DecidableEq

/-- The task backend as seen through `api.get_projects()` and
`api.get_tasks(project_id=...)`: an ordered project list and, for each
project id, an ordered task list. -/
structure World where
  projects : List Project
  tasks : String → List Task

/-- Python truthiness of `task.due : Optional[Due]`: a `Due` object is
always truthy, `None` is falsy. -/
def dueTruthy : Option Due → Bool
  | none => false
  | some _ => true

/-- Python truthiness of `due.datetime : Optional[str]`: `None` and the
empty string are falsy. -/
def datetimeTruthy (d : Due) : Bool :=
  match d.datetime with
  | none => false
  | some s => s != ""

/-- Truthiness of `task.due.datetime` guarded by a present `due`. -/
def taskDatetimeTruthy (t : Task) : Bool :=
  match t.due with
  | none => false
  | some d => datetimeTruthy d

/-- Embedding of `filter_tasks` (main.py lines 76-104).  `today` is the
string `datetime.date.today().strftime("%Y-%m-%d")`.  The `ValueError`
raised on an invalid mode becomes `Except.error`. -/
def filter_tasks (list_of_tasks : List Task) (mode : String) (today : String) :
    Except String (List Task) :=
  if mode = "dated" then
    Except.ok (list_of_tasks.filter fun task =>
      dueTruthy task.due && !(taskDatetimeTruthy task))
  else if mode = "datetimed" then
    Except.ok (list_of_tasks.filter fun task =>
      dueTruthy task.due && taskDatetimeTruthy task)
  else if mode = "today" then
    Except.ok (list_of_tasks.filter fun task =>
      match task.due with
      | some d => d.date == today
      | none => false)
  else
    Except.error
      "Invalid mode parameter. Please choose one of \x27dated\x27, \x27datetimed\x27, \x27today\x27"

/-- Value of a decimal digit character, `none` on non-digits. -/
def digitVal (c : Char) : Option Nat :=
  if c.isDigit then some (c.toNat - 48) else none

/-- Two decimal digits as a number. -/
def dig2 (a b : Char) : Option Nat := do
  let x ← digitVal a
  let y ← digitVal b
  pure (10 * x + y)

/-- Four decimal digits as a number. -/
def dig4 (a b c d : Char) : Option Nat := do
  let x ← dig2 a b
  let y ← dig2 c d
  pure (100 * x + y)

/-- Days from civil date (proleptic Gregorian), the standard bijection
between calendar dates and day counts used by `datetime.date.toordinal`
up to a constant offset.  Only differences of results are relied on. -/
def daysFromCivil (y m d : Int) : Int :=
  let yAdj := if m ≤ 2 then y - 1 else y
  let era := yAdj / 400
  let yoe := yAdj - era * 400
  let mp := if m ≤ 2 then m + 9 else m - 3
  let doy := (153 * mp + 2) / 5 + d - 1
  let doe := yoe * 365 + yoe / 4 - yoe / 100 + doy
  era * 146097 + doe - 719468

/-- Embedding of `datetime.datetime.fromisoformat` restricted to the
`YYYY-MM-DDTHH:MM:SS` shape this program produces and consumes, as a
count of seconds; a malformed string (on which Python raises) is `none`. -/
def fromisoformat (s : String) : Option Int :=
  match s.toList with
  | [y1, y2, y3, y4, c1, m1, m2, c2, d1, d2, c3, h1, h2, c4, n1, n2, c5, s1, s2] =>
    if c1 == '-' && c2 == '-' && c3 == 'T' && c4 == ':' && c5 == ':' then do
      let y ← dig4 y1 y2 y3 y4
      let mo ← dig2 m1 m2
      let da ← dig2 d1 d2
      let h ← dig2 h1 h2
      let mi ← dig2 n1 n2
      let se ← dig2 s1 s2
      if 1 ≤ mo && mo ≤ 12 && 1 ≤ da && da ≤ 31 && h ≤ 23 && mi ≤ 59 && se ≤ 59 then
        some (daysFromCivil y mo da * 86400 + (h * 3600 + mi * 60 + se))
      else none
    else none
  | _ => none

/-- Embedding of `get_time_to_task` (main.py lines 107-123): the signed
`timedelta` from `now` to the task's due instant, in whole seconds.
`now : Int` is `datetime.fromisoformat(get_current_time())` as a second
count; `none` models the exceptions Python raises when `task.due` is
`None`, `task.due.datetime` is `None`, or the timestamp is malformed. -/
def get_time_to_task (task : Task) (now : Int) : Option Int :=
  match task.due with
  | none => none
  | some d =>
    match d.datetime with
    | none => none
    | some s => (fromisoformat s).map (fun taskTime => taskTime - now)

/-- Embedding of `get_time_to_task_in_minutes` (main.py lines 126-136):
`int(total_seconds / 60)`, i.e. division by 60 truncated toward zero,
which on integers is `Int.tdiv`. -/
def get_time_to_task_in_minutes (task : Task) (now : Int) : Option Int :=
  (get_time_to_task task now).map (fun secs => Int.tdiv secs 60)

/-- `timestamps_to_send_notifications` (main.py line 21). -/
def timestamps_to_send_notifications : List Int := [10, 30, 60]

/-- Embedding of one Notifying step of the main loop (main.py lines
189-194): filter to datetimed tasks and, for each whose minutes-to-due
lies in the lead-time set, emit `"{content} in {minutes} minutes"`.
Returns the ordered list of message texts sent. -/
def notification_cycle (tasks : List Task) (now : Int) (today : String) :
    Except String (List String) :=
  match filter_tasks tasks "datetimed" today with
  | Except.error e => Except.error e
  | Except.ok datetimed =>
    datetimed.foldlM (fun msgs task =>
      match get_time_to_task_in_minutes task now with
      | none => Except.error "time computation failed"
      | some m =>
        if timestamps_to_send_notifications.contains m then
          Except.ok (msgs ++ [task.content ++ " in " ++ toString m ++ " minutes"])
        else
          Except.ok msgs) []

/-- Python `dict` insertion: an existing key keeps its position and gets
the new value, a new key is appended.  Models the `project_ids` dict. -/
def dictInsert (d : List (String × String)) (k v : String) : List (String × String) :=
  if d.any (fun p => p.1 = k) then
    d.map (fun p => if p.1 = k then (k, v) else p)
  else
    d ++ [(k, v)]

/-- The global state `init_ids` builds: the `project_ids` name-to-id dict
and `personal_ids["Me"]` (`none` while unset). -/
structure Ids where
  project_ids : List (String × String)
  me : Option String
deriving Repr, DecidableEq

/-- Loop body of `init_ids` over the remaining projects, threading the
global state; a raised `IndexError` stops the loop and is reported in the
second component, leaving the state as mutated so far. -/
def init_ids_run (w : World) : List Project → Ids → Ids × Option String
  | [], ids => (ids, none)
  | prj :: rest, ids =>
    let pids := dictInsert ids.project_ids prj.name prj.id
    if prj.is_inbox_project then
      match (w.tasks prj.id).head? with
      | some t => init_ids_run w rest ⟨pids, some t.creator_id⟩
      | none =>
        (⟨pids, ids.me⟩, some ("You don\x27t have any task in " ++ prj.name))
    else
      init_ids_run w rest ⟨pids, ids.me⟩

/-- Embedding of `init_ids` (main.py lines 24-45), starting from the
empty dicts of lines 18-19.  The second component is the `IndexError`
message when the inbox project has no tasks, `none` on success. -/
def init_ids (w : World) : Ids × Option String :=
  init_ids_run w w.projects ⟨[], none⟩

/-- Embedding of `get_all_my_tasks` (main.py lines 59-73): iterate the
`project_ids` dict in insertion order; the project named `"Inbox"`
contributes all its tasks, any other project only the tasks whose
`assignee_id` equals `personal_ids["Me"]` (here `me`, presupposed set). -/
def get_all_my_tasks (w : World) (pids : List (String × String)) (me : String) :
    List Task :=
  match pids with
  | [] => []
  | p :: rest =>
    (if p.1 = "Inbox" then w.tasks p.2
     else (w.tasks p.2).filter (fun task => task.assignee_id == some me)) ++
      get_all_my_tasks w rest me

/-- Python string slice `s[a:b]` for `0 ≤ a ≤ b`, by character position. -/
def pySlice (s : String) (a b : Nat) : String :=
  String.mk ((s.toList.drop a).take (b - a))

/-- One iteration of the formatting loop in `send_today_tasks` (main.py
lines 160-165): the line appended for one task, newline included.  An
absent `due` would raise in Python (`Except.error`); the today filter is
supposed to prevent that. -/
def format_today_line (task : Task) : Except String String :=
  match task.due with
  | none => Except.error "AttributeError: NoneType object has no attribute datetime"
  | some d =>
    match d.datetime with
    | some dt =>
      if dt != "" then
        Except.ok (task.content ++ "    " ++ pySlice dt 11 16 ++ "\n")
      else
        Except.ok (task.content ++ "\n")
    | none => Except.ok (task.content ++ "\n")

/-- Embedding of the message body built by `send_today_tasks` (main.py
lines 149-166): filter to today's tasks and concatenate one line per
task in fetch order. -/
def send_today_tasks (tasks : List Task) (today : String) : Except String String :=
  match filter_tasks tasks "today" today with
  | Except.error e => Except.error e
  | Except.ok today_tasks =>
    today_tasks.foldlM (fun acc task => (format_today_line task).map (acc ++ ·)) ""

/-- `filter_tasks` in mode `"dated"` is a plain `List.filter`. -/
theorem filter_tasks_dated (tasks : List Task) (today : String) :
    filter_tasks tasks "dated" today =
      Except.ok (tasks.filter fun task => dueTruthy task.due && !(taskDatetimeTruthy task)) :=
  rfl

/-- `filter_tasks` in mode `"datetimed"` is a plain `List.filter`. -/
theorem filter_tasks_datetimed (tasks : List Task) (today : String) :
    filter_tasks tasks "datetimed" today =
      Except.ok (tasks.filter fun task => dueTruthy task.due && taskDatetimeTruthy task) :=
  rfl

/-- `filter_tasks` in mode `"today"` is a plain `List.filter`. -/
theorem filter_tasks_today (tasks : List Task) (today : String) :
    filter_tasks tasks "today" today =
      Except.ok (tasks.filter fun task =>
        match task.due with
        | some d => d.date == today
        | none => false) :=
  rfl

/-- C6: `filter(tasks, "today")` succeeds and includes a task iff its
due descriptor is present and its date component string-equals the
current calendar date (a parameter independent of the UTC+3 time
utility), regardless of any time component. -/
theorem c6_today_filter_membership (tasks : List Task) (today : String) :
    ∃ l, filter_tasks tasks "today" today = Except.ok l ∧
      ∀ t, t ∈ l ↔ t ∈ tasks ∧ ∃ d, t.due = some d ∧ d.date = today := by
  refine ⟨_, filter_tasks_today tasks today, fun t => ?_⟩
  rw [List.mem_filter]
  constructor
  · rintro ⟨ht, hp⟩
    refine ⟨ht, ?_⟩
    cases hdue : t.due with
    | none => rw [hdue] at hp; cases hp
    | some d =>
      rw [hdue] at hp
      exact ⟨d, rfl, by simpa using hp⟩
  · rintro ⟨ht, d, hdue, hdate⟩
    exact ⟨ht, by rw [hdue]; simpa using hdate⟩

/-- C8: any mode other than the three valid ones makes `filter_tasks`
fail with the invalid-argument `ValueError` and no partial result. -/
theorem c8_invalid_mode_errors (tasks : List Task) (mode today : String)
    (h : ¬ (mode = "dated" ∨ mode = "datetimed" ∨ mode = "today")) :
    filter_tasks tasks mode today =
      Except.error
        "Invalid mode parameter. Please choose one of \x27dated\x27, \x27datetimed\x27, \x27today\x27" := by
  unfold filter_tasks
  rw [if_neg, if_neg, if_neg] <;> tauto

/-- Witness for C8 at mode `"bogus"`. -/
theorem c8_invalid_mode_errors_witness :
    filter_tasks [] "bogus" "2026-10-12" =
      Except.error
        "Invalid mode parameter. Please choose one of \x27dated\x27, \x27datetimed\x27, \x27today\x27" :=
  c8_invalid_mode_errors [] "bogus" "2026-10-12" (by decide)

/-- C9: in every valid mode the filtered list is a sublist of the
input: relative order is preserved and nothing is reordered. -/
theorem c9_filter_preserves_order (tasks : List Task) (mode today : String)
    (l : List Task)
    (hmode : mode = "dated" ∨ mode = "datetimed" ∨ mode = "today")
    (h : filter_tasks tasks mode today = Except.ok l) :
    List.Sublist l tasks := by
  rcases hmode with hm | hm | hm <;> subst hm
  · rw [filter_tasks_dated] at h
    cases h
    exact List.filter_sublist tasks
  · rw [filter_tasks_datetimed] at h
    cases h
    exact List.filter_sublist tasks
  · rw [filter_tasks_today] at h
    cases h
    exact List.filter_sublist tasks

/-- A concrete date-only task, used to instantiate hypotheses. -/
def tDated : Task :=
  ⟨"d1", "pay rent", some ⟨"2026-10-12", none⟩, "U1", none⟩

/-- A concrete datetimed task, used to instantiate hypotheses. -/
def tTimed : Task :=
  ⟨"dt1", "standup call", some ⟨"2026-10-12", some "2026-10-12T09:30:00"⟩, "U1", none⟩

/-- Witness for C9 on a concrete list and mode. -/
theorem c9_filter_preserves_order_witness :
    List.Sublist [tDated] [tDated, tTimed] :=
  c9_filter_preserves_order [tDated, tTimed] "dated" "2026-10-12" [tDated]
    (Or.inl rfl) rfl

/-- C10: every task surviving a valid filter mode has a present due
descriptor, and in mode `"datetimed"` also a present (non-empty)
datetime field, so the downstream field accesses in the notification
loop and the today-list handler never hit an absent due descriptor. -/
theorem c10_filtered_tasks_have_due (tasks : List Task) (mode today : String)
    (l : List Task)
    (hmode : mode = "dated" ∨ mode = "datetimed" ∨ mode = "today")
    (h : filter_tasks tasks mode today = Except.ok l) :
    ∀ t ∈ l, t.due.isSome = true ∧
      (mode = "datetimed" → ∃ d s, t.due = some d ∧ d.datetime = some s ∧ s ≠ "") := by
  intro t ht
  rcases hmode with hm | hm | hm <;> subst hm
  · rw [filter_tasks_dated] at h
    cases h
    have hp := (List.mem_filter.mp ht).2
    refine ⟨?_, by simp⟩
    cases hdue : t.due with
    | none => rw [hdue] at hp; simp [dueTruthy] at hp
    | some d => rfl
  · rw [filter_tasks_datetimed] at h
    cases h
    have hp := (List.mem_filter.mp ht).2
    rw [Bool.and_eq_true] at hp
    cases hdue : t.due with
    | none => rw [hdue] at hp; simp [dueTruthy] at hp
    | some d =>
      refine ⟨rfl, fun _ => ⟨d, ?_⟩⟩
      have hdt : datetimeTruthy d = true := by
        have h2 := hp.2
        unfold taskDatetimeTruthy at h2
        rw [hdue] at h2
        exact h2
      unfold datetimeTruthy at hdt
      cases hs : d.datetime with
      | none => rw [hs] at hdt; exact absurd hdt (by decide)
      | some s =>
        rw [hs] at hdt
        have hne : (s != "") = true := hdt
        exact ⟨s, rfl, rfl, by simpa using hne⟩
  · rw [filter_tasks_today] at h
    cases h
    have hp := (List.mem_filter.mp ht).2
    refine ⟨?_, by simp⟩
    cases hdue : t.due with
    | none => rw [hdue] at hp; cases hp
    | some d => rfl

/-- Splitting a list by three pointwise mutually exclusive and jointly
exhaustive boolean predicates preserves the total length. -/
theorem filter_three_length {α : Type} (p q r : α → Bool)
    (h : ∀ a, (p a).toNat + (q a).toNat + (r a).toNat = 1) (l : List α) :
    (l.filter p).length + (l.filter q).length + (l.filter r).length = l.length := by
  induction l with
  | nil => rfl
  | cons a l ih =>
    have ha := h a
    cases hp : p a <;> cases hq : q a <;> cases hr : r a <;>
      rw [hp, hq, hr] at ha <;>
      simp only [Bool.toNat_false, Bool.toNat_true] at ha <;>
      simp [List.filter_cons, hp, hq, hr] <;>
      omega

/-- C7: the `"dated"` output, the `"datetimed"` output, and the
no-due-descriptor subset partition the input exactly: the three lengths
sum to the input length, and every input task lies in precisely one of
the three buckets. -/
theorem c7_dated_datetimed_undated_partition (tasks : List Task) (today : String) :
    ∃ dated datetimed,
      filter_tasks tasks "dated" today = Except.ok dated ∧
      filter_tasks tasks "datetimed" today = Except.ok datetimed ∧
      dated.length + datetimed.length
          + (tasks.filter fun t => t.due.isNone).length = tasks.length ∧
      ∀ t ∈ tasks,
        (t ∈ dated ∧ t ∉ datetimed ∧ t.due ≠ none) ∨
        (t ∉ dated ∧ t ∈ datetimed ∧ t.due ≠ none) ∨
        (t ∉ dated ∧ t ∉ datetimed ∧ t.due = none) := by
  refine ⟨_, _, filter_tasks_dated tasks today, filter_tasks_datetimed tasks today,
    ?_, ?_⟩
  · refine filter_three_length _ _ _ (fun a => ?_) tasks
    cases hdue : a.due with
    | none => simp [dueTruthy, hdue]
    | some d =>
      cases hb : datetimeTruthy d <;>
        simp [dueTruthy, taskDatetimeTruthy, hdue, hb]
  · intro t ht
    cases hdue : t.due with
    | none =>
      refine Or.inr (Or.inr ⟨?_, ?_, rfl⟩)
      · intro hmem
        have hpt := ((List.mem_filter.mp hmem).2)
        rw [Bool.and_eq_true, hdue] at hpt
        exact absurd hpt.1 (by decide)
      · intro hmem
        have hpt := ((List.mem_filter.mp hmem).2)
        rw [Bool.and_eq_true, hdue] at hpt
        exact absurd hpt.1 (by decide)
    | some d =>
      have hne : some d ≠ none := Option.some_ne_none d
      have htt : taskDatetimeTruthy t = datetimeTruthy d := by
        unfold taskDatetimeTruthy
        rw [hdue]
      cases hb : datetimeTruthy d with
      | false =>
        refine Or.inl ⟨?_, ?_, hne⟩
        · exact List.mem_filter.mpr ⟨ht, by simp [dueTruthy, hdue, htt, hb]⟩
        · intro hmem
          have hpt := ((List.mem_filter.mp hmem).2)
          rw [Bool.and_eq_true, htt, hb] at hpt
          exact absurd hpt.2 (by decide)
      | true =>
        refine Or.inr (Or.inl ⟨?_, ?_, hne⟩)
        · intro hmem
          have hpt := ((List.mem_filter.mp hmem).2)
          rw [Bool.and_eq_true, htt, hb] at hpt
          exact absurd hpt.2 (by decide)
        · exact List.mem_filter.mpr ⟨ht, by simp [dueTruthy, hdue, htt, hb]⟩

/-- Witness for C10 on a concrete list in mode `"datetimed"`. -/
theorem c10_filtered_tasks_have_due_witness :
    tTimed.due.isSome = true ∧
      ("datetimed" = "datetimed" →
        ∃ d s, tTimed.due = some d ∧ d.datetime = some s ∧ s ≠ "") :=
  c10_filtered_tasks_have_due [tDated, tTimed] "datetimed" "2026-10-12" [tTimed]
    (Or.inr (Or.inl rfl)) rfl tTimed (by decide)

/-- C2: the minutes-until computation truncates the signed seconds
difference toward zero (magnitude divided by 60, sign restored), not
floor; in particular 599 seconds ahead gives 9, exactly 600 gives 10,
and 601 seconds past due gives -10 rather than -11. -/
theorem c2_minutes_truncate_toward_zero (task : Task) (now secs : Int)
    (h : get_time_to_task task now = some secs) :
    (0 ≤ secs →
      get_time_to_task_in_minutes task now = some ((secs.toNat / 60 : Nat) : Int)) ∧
    (secs < 0 →
      get_time_to_task_in_minutes task now = some (-(((-secs).toNat / 60 : Nat) : Int))) ∧
    (secs = 599 → get_time_to_task_in_minutes task now = some 9) ∧
    (secs = 600 → get_time_to_task_in_minutes task now = some 10) ∧
    (secs = -601 → get_time_to_task_in_minutes task now = some (-10)) := by
  have hmap : get_time_to_task_in_minutes task now = some (Int.tdiv secs 60) := by
    unfold get_time_to_task_in_minutes
    rw [h]
    rfl
  refine ⟨?_, ?_, ?_, ?_, ?_⟩
  · intro hpos
    rw [hmap]
    cases secs with
    | ofNat n => rfl
    | negSucc n => exact absurd hpos (by simp)
  · intro hneg
    rw [hmap]
    cases secs with
    | ofNat n => exact absurd hneg (by simp)
    | negSucc n => rfl
  · rintro rfl
    rw [hmap]
    decide
  · rintro rfl
    rw [hmap]
    decide
  · rintro rfl
    rw [hmap]
    decide

/-- A concrete datetimed task for the C2 instance; its due instant is at
second count 1791806400 (`2026-10-12T12:00:00`). -/
def tC2 : Task :=
  ⟨"c2", "review draft", some ⟨"2026-10-12", some "2026-10-12T12:00:00"⟩, "U1", none⟩

/-- Witness for C2: 599 seconds before the due instant the computed
minutes value is 9, not 10. -/
theorem c2_minutes_truncate_toward_zero_witness :
    get_time_to_task tC2 1791805801 = some 599 ∧
      get_time_to_task_in_minutes tC2 1791805801 = some 9 :=
  ⟨by decide,
    (c2_minutes_truncate_toward_zero tC2 1791805801 599 (by decide)).2.2.1 rfl⟩

/-- C1: a datetimed task due exactly 600 seconds (10 minutes) after the
cycle's clock makes one Notifying step send exactly the single message
`"<content> in 10 minutes"`; the same task observed by a later cycle
with 540 seconds (9 minutes) remaining sends nothing. -/
theorem c1_ten_minute_reminder (t : Task) (d : Due) (s : String)
    (inst now1 now2 : Int) (today : String)
    (hdue : t.due = some d) (hdt : d.datetime = some s)
    (hparse : fromisoformat s = some inst)
    (h10 : inst - now1 = 600) (h9 : inst - now2 = 540) :
    notification_cycle [t] now1 today = Except.ok [t.content ++ " in 10 minutes"] ∧
    notification_cycle [t] now2 today = Except.ok [] := by
  have hs : s ≠ "" := by
    intro he
    have hnone : fromisoformat "" = none := rfl
    rw [he, hnone] at hparse
    exact Option.noConfusion hparse
  have hp : (dueTruthy t.due && taskDatetimeTruthy t) = true := by
    simp [dueTruthy, taskDatetimeTruthy, datetimeTruthy, hdue, hdt, hs]
  have hfilter : filter_tasks [t] "datetimed" today = Except.ok [t] := by
    rw [filter_tasks_datetimed]
    simp [List.filter, hp]
  have hsecs1 : get_time_to_task t now1 = some 600 := by
    simp [get_time_to_task, hdue, hdt, hparse, h10]
  have hsecs2 : get_time_to_task t now2 = some 540 := by
    simp [get_time_to_task, hdue, hdt, hparse, h9]
  have hmin1 : get_time_to_task_in_minutes t now1 = some 10 := by
    unfold get_time_to_task_in_minutes
    rw [hsecs1]
    decide
  have hmin2 : get_time_to_task_in_minutes t now2 = some 9 := by
    unfold get_time_to_task_in_minutes
    rw [hsecs2]
    decide
  have hmsg : t.content ++ " in " ++ toString (10 : Int) ++ " minutes"
      = t.content ++ " in 10 minutes" := by
    rw [String.append_assoc, String.append_assoc]
    rfl
  constructor
  · unfold notification_cycle
    rw [hfilter]
    simp only [List.foldlM, hmin1]
    have hc : timestamps_to_send_notifications.contains (10 : Int) = true := by decide
    rw [hc]
    simp only [List.nil_append, hmsg]
    rfl
  · unfold notification_cycle
    rw [hfilter]
    simp only [List.foldlM, hmin2]
    have hc : timestamps_to_send_notifications.contains (9 : Int) = false := by decide
    rw [hc]
    rfl

/-- A concrete datetimed task for the C1 instance; its due instant is at
second count 1791807000 (`2026-10-12T12:10:00`). -/
def tC1 : Task :=
  ⟨"c1", "standup", some ⟨"2026-10-12", some "2026-10-12T12:10:00"⟩, "U1", none⟩

/-- Witness for C1: ten minutes ahead one reminder is sent, nine
minutes ahead none. -/
theorem c1_ten_minute_reminder_witness :
    fromisoformat "2026-10-12T12:10:00" = some 1791807000 ∧
      notification_cycle [tC1] 1791806400 "2026-10-12" =
        Except.ok ["standup in 10 minutes"] ∧
      notification_cycle [tC1] 1791806460 "2026-10-12" = Except.ok [] := by
  have h := c1_ten_minute_reminder tC1 ⟨"2026-10-12", some "2026-10-12T12:10:00"⟩
    "2026-10-12T12:10:00" 1791807000 1791806400 1791806460 "2026-10-12"
    rfl rfl (by decide) (by decide) (by decide)
  exact ⟨by decide, h.1, h.2⟩

/-- Running the `init_ids` loop over projects none of which is flagged
as inbox neither touches the resolved identity nor raises. -/
theorem init_ids_run_no_inbox (w : World) (ps : List Project) (ids : Ids)
    (h : ∀ q ∈ ps, q.is_inbox_project = false) :
    ∃ pids, init_ids_run w ps ids = (⟨pids, ids.me⟩, none) := by
  induction ps generalizing ids with
  | nil => exact ⟨ids.project_ids, rfl⟩
  | cons p rest ih =>
    have hp : p.is_inbox_project = false := h p (List.mem_cons_self p rest)
    obtain ⟨pids, hrest⟩ :=
      ih ⟨dictInsert ids.project_ids p.name p.id, ids.me⟩
        (fun q hq => h q (List.mem_cons_of_mem p hq))
    refine ⟨pids, ?_⟩
    unfold init_ids_run
    rw [hp]
    simpa using hrest

/-- Equation lemma: one step of the `init_ids` loop. -/
theorem init_ids_run_cons (w : World) (p : Project) (ps : List Project) (ids : Ids) :
    init_ids_run w (p :: ps) ids =
      if p.is_inbox_project then
        match (w.tasks p.id).head? with
        | some t =>
          init_ids_run w ps
            ⟨dictInsert ids.project_ids p.name p.id, some t.creator_id⟩
        | none =>
          (⟨dictInsert ids.project_ids p.name p.id, ids.me⟩,
            some ("You don\x27t have any task in " ++ p.name))
      else
        init_ids_run w ps ⟨dictInsert ids.project_ids p.name p.id, ids.me⟩ :=
  rfl

/-- The `init_ids` loop through non-inbox projects, then the flagged
inbox project `p`, then (on success) more non-inbox projects: a
non-empty inbox records the creator of its first task, an empty inbox
raises and leaves the identity as it was. -/
theorem init_ids_run_split (w : World) (p : Project) (ps2 : List Project)
    (hinbox : p.is_inbox_project = true) :
    ∀ (ps1 : List Project) (ids : Ids), (∀ q ∈ ps1, q.is_inbox_project = false) →
      (∀ t ts, w.tasks p.id = t :: ts → (∀ q ∈ ps2, q.is_inbox_project = false) →
        (init_ids_run w (ps1 ++ p :: ps2) ids).1.me = some t.creator_id ∧
        (init_ids_run w (ps1 ++ p :: ps2) ids).2 = none) ∧
      (w.tasks p.id = [] →
        (init_ids_run w (ps1 ++ p :: ps2) ids).1.me = ids.me ∧
        (init_ids_run w (ps1 ++ p :: ps2) ids).2 =
          some ("You don\x27t have any task in " ++ p.name)) := by
  intro ps1
  induction ps1 with
  | nil =>
    intro ids _
    constructor
    · intro t ts htasks hafter
      rw [List.nil_append, init_ids_run_cons, hinbox, if_pos rfl, htasks]
      simp only [List.head?_cons]
      obtain ⟨pids2, hrun2⟩ :=
        init_ids_run_no_inbox w ps2
          ⟨dictInsert ids.project_ids p.name p.id, some t.creator_id⟩ hafter
      rw [hrun2]
      exact ⟨rfl, rfl⟩
    · intro htasks
      rw [List.nil_append, init_ids_run_cons, hinbox, if_pos rfl, htasks]
      exact ⟨rfl, rfl⟩
  | cons q rest ih =>
    intro ids hq
    have hqf : q.is_inbox_project = false := hq q (List.mem_cons_self q rest)
    have hrest : ∀ r ∈ rest, r.is_inbox_project = false :=
      fun r hr => hq r (List.mem_cons_of_mem q hr)
    rw [List.cons_append, init_ids_run_cons, hqf]
    simp only [Bool.false_eq_true, if_false]
    exact ih ⟨dictInsert ids.project_ids q.name q.id, ids.me⟩ hrest

/-- C5: with the projects listing a single flagged inbox project, a
non-empty inbox makes `init_ids` record the creator of its first task
as the resolved self-identity and finish cleanly, while an empty inbox
makes it raise the missing-inbox-task `IndexError` with the
self-identity still unset. -/
theorem c5_init_ids_identity (w : World) (ps1 : List Project) (p : Project)
    (ps2 : List Project)
    (hw : w.projects = ps1 ++ p :: ps2)
    (hinbox : p.is_inbox_project = true)
    (hbefore : ∀ q ∈ ps1, q.is_inbox_project = false) :
    (∀ t ts, w.tasks p.id = t :: ts →
        (∀ q ∈ ps2, q.is_inbox_project = false) →
        (init_ids w).1.me = some t.creator_id ∧ (init_ids w).2 = none) ∧
    (w.tasks p.id = [] →
        (init_ids w).1.me = none ∧
        (init_ids w).2 = some ("You don\x27t have any task in " ++ p.name)) := by
  unfold init_ids
  rw [hw]
  exact init_ids_run_split w p ps2 hinbox ps1 ⟨[], none⟩ hbefore

/-- A world whose single project is a flagged inbox holding one task
created by `"U1"`. -/
def wC5 : World :=
  ⟨[⟨"p1", "Inbox", true⟩],
    fun pid => if pid = "p1" then [⟨"T1", "bootstrap", none, "U1", none⟩] else []⟩

/-- The same world with the inbox project empty. -/
def wC5empty : World := ⟨[⟨"p1", "Inbox", true⟩], fun _ => []⟩

/-- Witness for C5: identity resolution on the concrete worlds. -/
theorem c5_init_ids_identity_witness :
    ((init_ids wC5).1.me = some "U1" ∧ (init_ids wC5).2 = none) ∧
      ((init_ids wC5empty).1.me = none ∧
        (init_ids wC5empty).2 = some ("You don\x27t have any task in " ++ "Inbox")) :=
  ⟨(c5_init_ids_identity wC5 [] ⟨"p1", "Inbox", true⟩ [] rfl rfl
      (fun q hq => absurd hq (List.not_mem_nil q))).1
      ⟨"T1", "bootstrap", none, "U1", none⟩ [] rfl
      (fun q hq => absurd hq (List.not_mem_nil q)),
    (c5_init_ids_identity wC5empty [] ⟨"p1", "Inbox", true⟩ [] rfl rfl
      (fun q hq => absurd hq (List.not_mem_nil q))).2 rfl⟩

/-- Membership in `get_all_my_tasks`: a task is returned iff some entry
of the project map contributes it — the entry named `"Inbox"`
unconditionally, any other entry only when the task's assignee equals
the resolved self-identity. -/
theorem get_all_my_tasks_mem (w : World) (pids : List (String × String))
    (me : String) (t : Task) :
    t ∈ get_all_my_tasks w pids me ↔
      ∃ p, p ∈ pids ∧ t ∈ w.tasks p.2 ∧
        (p.1 = "Inbox" ∨ t.assignee_id = some me) := by
  induction pids with
  | nil => simp [get_all_my_tasks]
  | cons p rest ih =>
    unfold get_all_my_tasks
    rw [List.mem_append, ih]
    by_cases hp : p.1 = "Inbox"
    · rw [if_pos hp]
      constructor
      · rintro (hmem | ⟨q, hq, hqt, hcond⟩)
        · exact ⟨p, List.mem_cons_self p rest, hmem, Or.inl hp⟩
        · exact ⟨q, List.mem_cons_of_mem p hq, hqt, hcond⟩
      · rintro ⟨q, hq, hqt, hcond⟩
        rcases List.mem_cons.mp hq with rfl | hq2
        · exact Or.inl hqt
        · exact Or.inr ⟨q, hq2, hqt, hcond⟩
    · rw [if_neg hp]
      constructor
      · rintro (hmem | ⟨q, hq, hqt, hcond⟩)
        · obtain ⟨hmem2, hcond2⟩ := List.mem_filter.mp hmem
          refine ⟨p, List.mem_cons_self p rest, hmem2, Or.inr ?_⟩
          simpa using hcond2
        · exact ⟨q, List.mem_cons_of_mem p hq, hqt, hcond⟩
      · rintro ⟨q, hq, hqt, hcond⟩
        rcases List.mem_cons.mp hq with rfl | hq2
        · rcases hcond with hc | hc
          · exact absurd hc hp
          · exact Or.inl (List.mem_filter.mpr ⟨hqt, by simpa using hc⟩)
        · exact Or.inr ⟨q, hq2, hqt, hcond⟩

/-- A project flagged as the default/inbox project but carrying a
different name. -/
def pFlagged : Project := ⟨"pX", "Tareas", true⟩

/-- A task in that flagged project, created by `"U1"` but assigned to
`"U2"`. -/
def tFlagged : Task := ⟨"tX", "assigned elsewhere", none, "U1", some "U2"⟩

/-- A world whose only project is the flagged-but-differently-named
default project. -/
def wFlagged : World :=
  ⟨[pFlagged], fun pid => if pid = "pX" then [tFlagged] else []⟩

/-- C3 counterexample: in `wFlagged` the only project is flagged as the
default/inbox project, initialization succeeds and resolves the
self-identity `"U1"`, the flagged project holds `tFlagged` — yet
`get_all_my_tasks` omits it, because the inclusion test compares the
project's name against the literal `"Inbox"` rather than the flag. -/
theorem c3_counterexample_flag_ignored :
    pFlagged.is_inbox_project = true ∧
    (init_ids wFlagged).2 = none ∧
    (init_ids wFlagged).1.me = some "U1" ∧
    tFlagged ∈ wFlagged.tasks pFlagged.id ∧
    ¬ tFlagged ∈ get_all_my_tasks wFlagged (init_ids wFlagged).1.project_ids "U1" := by
  decide

/-- The inbox task of end-to-end scenario A. -/
def tT1 : Task := ⟨"T1", "task one", none, "U1", none⟩

/-- The Work task of scenario A assigned to the self-identity. -/
def tW1 : Task := ⟨"W1", "work one", none, "U1", some "U1"⟩

/-- The Work task of scenario A assigned to someone else. -/
def tW2 : Task := ⟨"W2", "work two", none, "U1", some "U2"⟩

/-- The world of end-to-end scenario A: a default project named
`"Inbox"` holding `tT1`, and a `"Work"` project holding `tW1`, `tW2`. -/
def wScenA : World :=
  ⟨[⟨"p1", "Inbox", true⟩, ⟨"p2", "Work", false⟩],
    fun pid =>
      if pid = "p1" then [tT1]
      else if pid = "p2" then [tW1, tW2]
      else []⟩

/-- C3 amended: `get_all_my_tasks` includes all tasks of every project
map entry *named* `"Inbox"` unconditionally and, from every other
entry, exactly the tasks whose assignee equals the resolved
self-identity; on scenario A (where the default project is indeed named
`"Inbox"`) it returns exactly `tT1` and the `"U1"`-assigned Work task. -/
theorem c3_amended_inbox_selected_by_name :
    (∀ (w : World) (pids : List (String × String)) (me : String) (t : Task),
        t ∈ get_all_my_tasks w pids me ↔
          ∃ p, p ∈ pids ∧ t ∈ w.tasks p.2 ∧
            (p.1 = "Inbox" ∨ t.assignee_id = some me)) ∧
    (init_ids wScenA).1.me = some "U1" ∧
    get_all_my_tasks wScenA (init_ids wScenA).1.project_ids "U1" = [tT1, tW1] :=
  ⟨get_all_my_tasks_mem, by decide, by decide⟩

/-- The timed due-today task of end-to-end scenario D. -/
def tStandup : Task :=
  ⟨"s1", "Standup", some ⟨"2026-10-12", some "2026-10-12T09:30:00"⟩, "U1", none⟩

/-- The untimed due-today task of end-to-end scenario D. -/
def tGroceries : Task :=
  ⟨"g1", "Groceries", some ⟨"2026-10-12", none⟩, "U1", none⟩

/-- C4 counterexample: the message body built for scenario D ends in a
newline, so it differs from the exact two-line join the claim states. -/
theorem c4_counterexample_trailing_newline :
    send_today_tasks [tStandup, tGroceries] "2026-10-12" =
        Except.ok "Standup    09:30\nGroceries\n" ∧
      send_today_tasks [tStandup, tGroceries] "2026-10-12" ≠
        Except.ok "Standup    09:30\nGroceries" := by
  have h1 : send_today_tasks [tStandup, tGroceries] "2026-10-12" =
      Except.ok "Standup    09:30\nGroceries\n" := rfl
  refine ⟨h1, fun h => ?_⟩
  rw [h1] at h
  have h2 : ("Standup    09:30\nGroceries\n" : String)
      = "Standup    09:30\nGroceries" := by injection h
  exact absurd h2 (by decide)

/-- C4 amended: the body sent for scenario D is
`"Standup    09:30\nGroceries\n"` — a `"<content>    <HH:MM>"` line for
the timed task, a `"<content>"` line for the untimed one, in fetch
order, every line newline-terminated, the last included. -/
theorem c4_amended_today_message_body :
    send_today_tasks [tStandup, tGroceries] "2026-10-12" =
      Except.ok ("Standup    09:30" ++ "\n" ++ ("Groceries" ++ "\n")) :=
  rfl

end TodoistBot
